import Mathlib

/-!
Shallow embedding of the Task CRUD HTTP service of `cmd/api/main.go`
(sandbox-go).  Go strings used for request paths are modelled as `List Char`;
machine integers as `Int` (no arithmetic in the service ever approaches the
64-bit range); JSON values as a small inductive type; the pgx datastore as a
record of operations (`DBOps`) over an abstract state, with `pgStore` the
honest instance implementing the SQL statements the handlers issue against
the `tasks` table of `init.sql` (SERIAL id, `done BOOLEAN DEFAULT FALSE`).
Fallible datastore calls return `Except DbError`.
-/

namespace TaskApi

-- -----------------------------------------------------------
-- MODELS  (main.go lines 33-52)
-- -----------------------------------------------------------

structure Task where
  id : Int
  userId : Int
  title : String
  done : Bool
  deriving DecidableEq, Repr

structure CreateTaskRequest where
  userId : Int
  title : String
  deriving DecidableEq, Repr

/-- Pointer fields of Go's `UpdateTaskRequest` become `Option`:
`none` = field absent from the JSON body. -/
structure UpdateTaskRequest where
  title : Option String
  done : Option Bool
  deriving DecidableEq, Repr

/-- JSON values, as produced by `encoding/json` for the types the service
writes.  `Json.null` is what Go would emit for a nil slice. -/
inductive Json where
  | null : Json
  | bool : Bool → Json
  | num : Int → Json
  | str : String → Json
  | arr : List Json → Json
  | obj : List (String × Json) → Json

/-- A response as observed by the client: status code and (optional) JSON
body.  `w.WriteHeader(http.StatusNoContent)` alone produces `body = none`. -/
structure Response where
  status : Nat
  body : Option Json

-- -----------------------------------------------------------
-- HELPERS  (main.go lines 66-82)
-- -----------------------------------------------------------

/-- `writeJSON` (main.go line 66): send a JSON body with the given status. -/
def writeJSON (status : Nat) (data : Json) : Response :=
  { status := status, body := some data }

/-- `writeError` (main.go line 73): JSON error body `{"error": msg}`. -/
def writeError (status : Nat) (msg : String) : Response :=
  writeJSON status (Json.obj [("error", Json.str msg)])

/-- `strings.TrimPrefix`: drop `pre` from the start of `s` when present. -/
def trimLeading (s pre : List Char) : List Char :=
  if pre.isPrefixOf s then s.drop pre.length else s

/-- `strings.TrimSuffix`: drop `suf` from the end of `s` when present. -/
def trimTrailing (s suf : List Char) : List Char :=
  if suf.isSuffixOf s then s.take (s.length - suf.length) else s

/-- Value of a digit string, most significant first. -/
def digitsVal (ds : List Char) : Nat :=
  ds.foldl (fun acc c => acc * 10 + (c.toNat - ('0').toNat)) 0

/-- `strconv.Atoi`: optional leading sign, then one or more decimal digits;
anything else is an error (`none`).  The int64 range check is not modelled:
no id in any statement of this development approaches it. -/
def atoi (s : List Char) : Option Int :=
  match s with
  | [] => none
  | '-' :: ds =>
      if ds ≠ [] ∧ ds.all Char.isDigit then some (-(digitsVal ds : Int)) else none
  | '+' :: ds =>
      if ds ≠ [] ∧ ds.all Char.isDigit then some (digitsVal ds : Int) else none
  | ds =>
      if ds.all Char.isDigit then some (digitsVal ds : Int) else none

/-- `extractID` (main.go line 78): trim the route pre-path, trim one
trailing "/", parse with `strconv.Atoi`. -/
def extractID (path pre : List Char) : Option Int :=
  atoi (trimTrailing (trimLeading path pre) ['/'])

-- -----------------------------------------------------------
-- DATASTORE INTERFACE
-- -----------------------------------------------------------

/-- Why a pgx call fails: `noRows` is `pgx.ErrNoRows` (query matched no
row); `failure` is any other upstream/datastore error (connection failure,
constraint violation, driver error). -/
inductive DbError where
  | noRows : DbError
  | failure : DbError
  deriving DecidableEq, Repr

/-- The datastore operations the handlers invoke, over an abstract state σ.
Each field is one SQL statement issued in main.go:
* `query_tasksOrderById` — `SELECT id, user_id, title, done FROM tasks ORDER BY id`
  (line 90); the returned rows are each still to be scanned, so a per-row
  scan error is possible (line 103).
* `queryRow_insertTask userID title` — `INSERT INTO tasks (user_id, title)
  VALUES ($1,$2) RETURNING id, user_id, title, done` (line 132).
* `queryRow_taskById id` — `SELECT ... FROM tasks WHERE id = $1`
  (lines 155 and 198).
* `exec_setTitle title id` — `UPDATE tasks SET title = $1 WHERE id = $2` (line 183).
* `exec_setDone done id` — `UPDATE tasks SET done = $1 WHERE id = $2` (line 187).
* `exec_deleteTask id` — `DELETE FROM tasks WHERE id = $1` (line 218); the
  `Nat` is the command tag's `RowsAffected()`.
A failed statement returns `.error` and leaves the state with the caller. -/
structure DBOps (σ : Type) where
  query_tasksOrderById : σ → Except DbError (List (Except DbError Task))
  queryRow_insertTask : σ → Int → String → Except DbError (Task × σ)
  queryRow_taskById : σ → Int → Except DbError Task
  exec_setTitle : σ → String → Int → Except DbError σ
  exec_setDone : σ → Bool → Int → Except DbError σ
  exec_deleteTask : σ → Int → Except DbError (Nat × σ)

/-- The `for rows.Next() { rows.Scan(...) }` loop of `handleListTasks`:
collect scanned rows, stopping at the first scan error. -/
def scanAll : List (Except DbError Task) → Except DbError (List Task)
  | [] => .ok []
  | .error e :: _ => .error e
  | .ok t :: rest =>
      match scanAll rest with
      | .error e => .error e
      | .ok ts => .ok (t :: ts)

/-- JSON encoding of a `Task` per its struct tags (main.go lines 33-38). -/
def encodeTask (t : Task) : Json :=
  Json.obj [("id", Json.num t.id), ("user_id", Json.num t.userId),
            ("title", Json.str t.title), ("done", Json.bool t.done)]

-- -----------------------------------------------------------
-- HANDLERS  (main.go lines 89-231)
-- Each takes the datastore interface and its current state and returns the
-- response together with the state after the request.
-- -----------------------------------------------------------

/-- `handleListTasks` (main.go line 89): GET /tasks.  The accumulator
starts as the empty slice `[]Task{}` (line 100), so the success body is
always a JSON array, never `Json.null`. -/
def handleListTasks {σ : Type} (db : DBOps σ) (s : σ) : Response × σ :=
  match db.query_tasksOrderById s with
  | .error _ => (writeError 500 "failed to query tasks", s)
  | .ok rows =>
      match scanAll rows with
      | .error _ => (writeError 500 "failed to scan task", s)
      | .ok tasks => (writeJSON 200 (Json.arr (tasks.map encodeTask)), s)

/-- `handleCreateTask` (main.go line 114): POST /tasks.  `body` is the
result of `json.NewDecoder(r.Body).Decode(&req)`: `none` when the body is
not well-formed JSON for `CreateTaskRequest`; absent fields decode to their
zero values. -/
def handleCreateTask {σ : Type} (db : DBOps σ) (s : σ)
    (body : Option CreateTaskRequest) : Response × σ :=
  match body with
  | none => (writeError 400 "invalid JSON body", s)
  | some req =>
      if req.title = "" then (writeError 400 "title is required", s)
      else if req.userId = 0 then (writeError 400 "user_id is required", s)
      else
        match db.queryRow_insertTask s req.userId req.title with
        | .error _ => (writeError 500 "failed to create task", s)
        | .ok (task, s1) => (writeJSON 201 (encodeTask task), s1)

/-- `handleGetTask` (main.go line 147): GET /tasks/{id}.  NOTE: the source
tests only `err != nil` after the row scan (line 159), so every lookup
error — `pgx.ErrNoRows` or a datastore failure alike — produces the 404
not-found response. -/
def handleGetTask {σ : Type} (db : DBOps σ) (s : σ) (path : List Char) :
    Response × σ :=
  match extractID path ("/tasks/".toList) with
  | none => (writeError 400 "invalid task ID", s)
  | some id =>
      match db.queryRow_taskById s id with
      | .error _ => (writeError 404 ("task " ++ toString id ++ " not found"), s)
      | .ok task => (writeJSON 200 (encodeTask task), s)

/-- `handleUpdateTask` (main.go line 168): PUT /tasks/{id}.  `body` models
the decode of `UpdateTaskRequest` (`none` = malformed JSON).  The source
uses ONE `err` variable for both conditional writes (lines 182-189): each
issued write reassigns it, so when both fields are present a successful
`done` write overwrites the error of a failed `title` write.  `step1` and
`step2` carry this `(err, state)` pair through the two writes. -/
def handleUpdateTask {σ : Type} (db : DBOps σ) (s : σ) (path : List Char)
    (body : Option UpdateTaskRequest) : Response × σ :=
  match extractID path ("/tasks/".toList) with
  | none => (writeError 400 "invalid task ID", s)
  | some id =>
      match body with
      | none => (writeError 400 "invalid JSON body", s)
      | some req =>
          let step1 : Option DbError × σ :=
            match req.title with
            | none => (none, s)
            | some newTitle =>
                match db.exec_setTitle s newTitle id with
                | .ok s1 => (none, s1)
                | .error e => (some e, s)
          let step2 : Option DbError × σ :=
            match req.done with
            | none => step1
            | some newDone =>
                match db.exec_setDone step1.2 newDone id with
                | .ok s2 => (none, s2)
                | .error e => (some e, step1.2)
          match step2 with
          | (some _, s2) => (writeError 500 "failed to update task", s2)
          | (none, s2) =>
              match db.queryRow_taskById s2 id with
              | .error _ =>
                  (writeError 404 ("task " ++ toString id ++ " not found"), s2)
              | .ok task => (writeJSON 200 (encodeTask task), s2)

/-- `handleDeleteTask` (main.go line 211): DELETE /tasks/{id}. -/
def handleDeleteTask {σ : Type} (db : DBOps σ) (s : σ) (path : List Char) :
    Response × σ :=
  match extractID path ("/tasks/".toList) with
  | none => (writeError 400 "invalid task ID", s)
  | some id =>
      match db.exec_deleteTask s id with
      | .error _ => (writeError 500 "failed to delete task", s)
      | .ok (affected, s1) =>
          if affected = 0 then
            (writeError 404 ("task " ++ toString id ++ " not found"), s1)
          else
            ({ status := 204, body := none }, s1)

-- -----------------------------------------------------------
-- HTTP layer  (main.go lines 236-271)
-- -----------------------------------------------------------

inductive Method where
  | get | post | put | delete | patch | head | options | connect
  deriving DecidableEq, Repr

/-- The parts of an `http.Request` the service reads.  The raw body is not
modelled; instead each request carries the outcome of decoding its body
into the type the addressed handler uses (`none` = decode error). -/
structure Request where
  method : Method
  path : List Char
  createBody : Option CreateTaskRequest
  updateBody : Option UpdateTaskRequest

/-- `routes` (main.go line 236): the pattern dispatch of the registered
`http.ServeMux`.  Pattern "/tasks" is exact, "/tasks/" is a subtree match,
"/health" is exact; an unmatched path gets the mux's plain-text 404 (no
JSON body).  Dispatch is on the literal path: the mux's URL
canonicalization, which runs before this dispatch, is modelled one level
up in `serveMux`.  The /health handler (line 266) never inspects the
method. -/
def routes {σ : Type} (db : DBOps σ) (s : σ) (r : Request) : Response × σ :=
  if r.path = "/tasks".toList then
    match r.method with
    | .get => handleListTasks db s
    | .post => handleCreateTask db s r.createBody
    | _ => (writeError 405 "method not allowed", s)
  else if ("/tasks/".toList).isPrefixOf r.path then
    match r.method with
    | .get => handleGetTask db s r.path
    | .put => handleUpdateTask db s r.path r.updateBody
    | .delete => handleDeleteTask db s r.path
    | _ => (writeError 405 "method not allowed", s)
  else if r.path = "/health".toList then
    (writeJSON 200 (Json.obj [("status", Json.str "ok")]), s)
  else
    ({ status := 404, body := none }, s)

-- -----------------------------------------------------------
-- URL canonicalization of net/http's ServeMux
-- The service is served through `http.ListenAndServe(addr, app.routes())`
-- (main.go line 305), so before any repository handler runs the ServeMux
-- canonicalizes the request path and 301-redirects when it differs.
-- Modelled from the documented behavior of the Go standard library
-- (`path.Clean` rules 1-4 and `net/http`'s `cleanPath`), as `strconv.Atoi`
-- and `strings.TrimPrefix` are above.
-- -----------------------------------------------------------

/-- One step of `path.Clean` element processing: an empty element (double
slash) and a "." element are dropped; a ".." element pops the previous
element (at the root, for a rooted path, it is simply dropped); any other
element is kept. -/
def cleanStack (stack : List (List Char)) (seg : List Char) : List (List Char) :=
  if seg = [] ∨ seg = ['.'] then stack
  else if seg = ['.', '.'] then stack.drop 1
  else seg :: stack

/-- Join path elements with "/" separators. -/
def joinSlash : List (List Char) → List Char
  | [] => []
  | [seg] => seg
  | seg :: rest => seg ++ '/' :: joinSlash rest

/-- `path.Clean` of the Go standard library, for rooted paths — the only
paths `net/http`'s `cleanPath` evaluates it on, since it prepends "/"
first.  Multiple slashes collapse, "." elements vanish, ".." elements
consume their preceding element ("/.." at the root becomes "/"), and the
result never ends in a slash unless it is the root itself. -/
def pathClean (p : List Char) : List Char :=
  '/' :: joinSlash (((p.splitOn '/').foldl cleanStack []).reverse)

/-- `cleanPath` of `net/http`: the empty path is "/", a missing leading
slash is prepended, then `path.Clean` runs and the one trailing slash it
strips (except at the root) is restored. -/
def cleanPath (p : List Char) : List Char :=
  if p = [] then ['/']
  else
    let p2 := if p.head? = some '/' then p else '/' :: p
    let np := pathClean p2
    if p2.getLast? = some '/' ∧ np ≠ ['/'] then np ++ ['/'] else np

/-- The full serving pipeline of `http.ListenAndServe(addr, app.routes())`
(main.go line 305): for every method but CONNECT, `ServeMux.Handler` first
compares the canonical path with the request path and, when they differ,
answers 301 Moved Permanently (Location: the canonical path; no repository
handler runs — the redirect body is the mux's, not JSON, so `body = none`
here like the mux's plain-text 404).  Otherwise it dispatches to the
registered patterns (`routes`). -/
def serveMux {σ : Type} (db : DBOps σ) (s : σ) (r : Request) : Response × σ :=
  if r.method ≠ Method.connect ∧ cleanPath r.path ≠ r.path then
    ({ status := 301, body := none }, s)
  else
    routes db s r

-- -----------------------------------------------------------
-- HONEST DATASTORE  (tasks table of init.sql)
-- -----------------------------------------------------------

/-- State of the `tasks` table: its rows plus the SERIAL id sequence. -/
structure Store where
  rows : List Task
  nextId : Int
  deriving DecidableEq, Repr

/-- Row order used by `ORDER BY id`. -/
def taskLE (a b : Task) : Prop := a.id ≤ b.id

instance : DecidableRel taskLE := fun a b => Int.decLe a.id b.id

instance : IsTotal Task taskLE := ⟨fun a b => Int.le_total a.id b.id⟩

instance : IsTrans Task taskLE := ⟨fun _ _ _ hab hbc => le_trans hab hbc⟩

/-- The rows of the table in ascending id order. -/
def sortById (ts : List Task) : List Task := List.insertionSort taskLE ts

/-- The honest datastore: each `DBOps` field implements its SQL statement
over the table state.  Inserts take the next SERIAL id and the `done`
column's `DEFAULT FALSE`; updates and deletes match rows on id; a
single-row select of a missing id is `pgx.ErrNoRows`. -/
def pgStore : DBOps Store where
  query_tasksOrderById s := .ok ((sortById s.rows).map Except.ok)
  queryRow_insertTask s userID title :=
    let t : Task := { id := s.nextId, userId := userID, title := title, done := false }
    .ok (t, { rows := s.rows ++ [t], nextId := s.nextId + 1 })
  queryRow_taskById s id :=
    match s.rows.find? (fun t => t.id == id) with
    | some t => .ok t
    | none => .error .noRows
  exec_setTitle s title id :=
    .ok { rows := s.rows.map (fun t => if t.id == id then { t with title := title } else t),
          nextId := s.nextId }
  exec_setDone s d id :=
    .ok { rows := s.rows.map (fun t => if t.id == id then { t with done := d } else t),
          nextId := s.nextId }
  exec_deleteTask s id :=
    .ok ((s.rows.filter (fun t => t.id == id)).length,
         { rows := s.rows.filter (fun t => ¬ t.id == id), nextId := s.nextId })

-- -----------------------------------------------------------
-- FAULT-INJECTING DATASTORES used to settle error-path claims
-- -----------------------------------------------------------

/-- A datastore on which every statement fails with an upstream error,
except that `UPDATE tasks SET done = ...` succeeds and the single-row
select finds task 7.  Exhibits the masked-write-failure path of
`handleUpdateTask`. -/
def dbTitleWriteFails : DBOps Unit where
  query_tasksOrderById _ := .error .failure
  queryRow_insertTask _ _ _ := .error .failure
  queryRow_taskById _ _ := .ok { id := 7, userId := 1, title := "old", done := true }
  exec_setTitle _ _ _ := .error .failure
  exec_setDone s _ _ := .ok s
  exec_deleteTask _ _ := .error .failure

/-- A datastore on which every statement fails with an upstream error
(not `noRows`): connection loss, in the spec's taxonomy. -/
def dbUpstreamFails : DBOps Unit where
  query_tasksOrderById _ := .error .failure
  queryRow_insertTask _ _ _ := .error .failure
  queryRow_taskById _ _ := .error .failure
  exec_setTitle _ _ _ := .error .failure
  exec_setDone _ _ _ := .error .failure
  exec_deleteTask _ _ := .error .failure

-- -----------------------------------------------------------
-- HELPER LEMMAS
-- -----------------------------------------------------------

theorem isPrefixOf_append_self (l1 l2 : List Char) :
    (l1.isPrefixOf (l1 ++ l2)) = true := by
  induction l1 with
  | nil => simp [List.isPrefixOf]
  | cons a as ih => simp [List.isPrefixOf, ih]

theorem isSuffixOf_append_self (l1 l2 : List Char) :
    (l1.isSuffixOf (l2 ++ l1)) = true := by
  show (l1.reverse.isPrefixOf (l2 ++ l1).reverse) = true
  rw [List.reverse_append]
  exact isPrefixOf_append_self l1.reverse l2.reverse

theorem scanAll_map_ok (l : List Task) : scanAll (l.map Except.ok) = .ok l := by
  induction l with
  | nil => rfl
  | cons t rest ih => simp [scanAll, ih]

theorem trimLeading_append (pre rest : List Char) :
    trimLeading (pre ++ rest) pre = rest := by
  unfold trimLeading
  rw [if_pos (by exact_mod_cast isPrefixOf_append_self pre rest)]
  exact List.drop_left pre rest

theorem trimTrailing_append_slash (xs : List Char) :
    trimTrailing (xs ++ ['/']) ['/'] = xs := by
  unfold trimTrailing
  rw [if_pos (by exact_mod_cast isSuffixOf_append_self ['/'] xs)]
  simp [List.take_left xs]

theorem trimTrailing_of_no_slash (xs : List Char)
    (h : (['/'].isSuffixOf xs) = false) : trimTrailing xs ['/'] = xs := by
  simp [trimTrailing, h]

-- -----------------------------------------------------------
-- CLAIM THEOREMS
-- -----------------------------------------------------------

/-- C2 counterexample: a GET /tasks/5 whose single-row lookup fails with an
upstream datastore error (`DbError.failure`, not `noRows`) is answered with
HTTP 404 and the not-found body — not with HTTP 500 as the claim states. -/
theorem get_upstream_error_gives_404 :
    (handleGetTask dbUpstreamFails () "/tasks/5".toList).1
        = writeError 404 "task 5 not found"
    ∧ (handleGetTask dbUpstreamFails () "/tasks/5".toList).1.status ≠ 500 :=
  ⟨rfl, by decide⟩

/-- C2 (amended): for a well-formed id, `handleGetTask` answers 404 with
body `{"error": "task {id} not found"}` on EVERY lookup error — absence
(`noRows`) and upstream datastore failure alike, since the source only
tests `err != nil` — and answers 200 with the record on success; it never
produces a 500. -/
theorem get_task_contract {σ : Type} (db : DBOps σ) (s : σ) (p : List Char)
    (id : Int) (hid : extractID p "/tasks/".toList = some id) :
    (∀ e, db.queryRow_taskById s id = .error e →
        handleGetTask db s p
          = (writeError 404 ("task " ++ toString id ++ " not found"), s))
    ∧ (∀ t, db.queryRow_taskById s id = .ok t →
        handleGetTask db s p = (writeJSON 200 (encodeTask t), s)) := by
  constructor
  · intro e he
    unfold handleGetTask
    simp only [hid, he]
  · intro t ht
    unfold handleGetTask
    simp only [hid, ht]

/-- C2 witness: on the empty table, GET /tasks/5 is 404 with the
claimed body. -/
theorem get_task_contract_witness :
    handleGetTask pgStore { rows := [], nextId := 1 } "/tasks/5".toList
      = (writeError 404 "task 5 not found", { rows := [], nextId := 1 }) := by
  have h := get_task_contract pgStore { rows := [], nextId := 1 }
    ("/tasks/5".toList) 5 (by decide)
  exact h.1 DbError.noRows rfl

/-- C6: POST /tasks validation happens before any datastore call (the
equations hold for every datastore `db` and leave the state `s` untouched):
a body that fails to decode gives 400 "invalid JSON body"; an empty title
gives 400 "title is required"; a zero user_id (with non-empty title) gives
400 "user_id is required". -/
theorem create_validation_before_datastore {σ : Type} (db : DBOps σ) (s : σ)
    (req : CreateTaskRequest) :
    handleCreateTask db s none = (writeError 400 "invalid JSON body", s)
    ∧ (req.title = "" →
        handleCreateTask db s (some req)
          = (writeError 400 "title is required", s))
    ∧ (req.title ≠ "" → req.userId = 0 →
        handleCreateTask db s (some req)
          = (writeError 400 "user_id is required", s)) := by
  refine ⟨rfl, ?_, ?_⟩
  · intro h
    simp [handleCreateTask, h]
  · intro h h0
    simp [handleCreateTask, h, h0]

/-- C6 witness: a decoded body `{"user_id": 5}` (title absent, decoding to
the zero value "") is rejected with "title is required" on any store. -/
theorem create_validation_witness :
    handleCreateTask pgStore { rows := [], nextId := 1 }
        (some { userId := 5, title := "" })
      = (writeError 400 "title is required", { rows := [], nextId := 1 }) := by
  have h := create_validation_before_datastore pgStore { rows := [], nextId := 1 }
    { userId := 5, title := "" }
  exact h.2.1 rfl

/-- C7: a POST /tasks that passes validation and whose insert succeeds
answers 201, and the body is exactly the stored record: the row appended
to the table, carrying the SERIAL id the datastore generated and
`done = false` from the column default. -/
theorem create_success_returns_stored_record (s : Store)
    (req : CreateTaskRequest) (ht : req.title ≠ "") (hu : req.userId ≠ 0) :
    handleCreateTask pgStore s (some req)
      = (writeJSON 201 (encodeTask
            { id := s.nextId, userId := req.userId, title := req.title, done := false }),
         { rows := s.rows ++
             [{ id := s.nextId, userId := req.userId, title := req.title, done := false }],
           nextId := s.nextId + 1 }) := by
  simp [handleCreateTask, ht, hu, pgStore]

/-- C7 witness: creating {"user_id": 1, "title": "Write spec"} on the empty
table yields 201 with record id 1, done false. -/
theorem create_success_witness :
    handleCreateTask pgStore { rows := [], nextId := 1 }
        (some { userId := 1, title := "Write spec" })
      = (writeJSON 201 (encodeTask
            { id := 1, userId := 1, title := "Write spec", done := false }),
         { rows := [{ id := 1, userId := 1, title := "Write spec", done := false }],
           nextId := 2 }) := by
  have h := create_success_returns_stored_record { rows := [], nextId := 1 }
    { userId := 1, title := "Write spec" } (by decide) (by decide)
  exact h

/-- C8: DELETE /tasks/{id} with a well-formed id: a failing delete
statement answers 500; a delete affecting zero rows answers 404 with
`{"error": "task {id} not found"}`; a delete affecting at least one row
answers 204 with no body. -/
theorem delete_contract {σ : Type} (db : DBOps σ) (s : σ) (p : List Char)
    (id : Int) (hp : extractID p "/tasks/".toList = some id) :
    (∀ e, db.exec_deleteTask s id = .error e →
        handleDeleteTask db s p = (writeError 500 "failed to delete task", s))
    ∧ (∀ s1, db.exec_deleteTask s id = .ok (0, s1) →
        handleDeleteTask db s p
          = (writeError 404 ("task " ++ toString id ++ " not found"), s1))
    ∧ (∀ n s1, db.exec_deleteTask s id = .ok (n + 1, s1) →
        handleDeleteTask db s p = ({ status := 204, body := none }, s1)) := by
  refine ⟨?_, ?_, ?_⟩
  · intro e he
    unfold handleDeleteTask
    simp only [hp, he]
  · intro s1 h0
    unfold handleDeleteTask
    simp only [hp, h0, if_pos]
  · intro n s1 hn
    unfold handleDeleteTask
    simp only [hp, hn]
    simp

/-- C8 witness: deleting the only row answers 204 with no body and removes
the row. -/
theorem delete_contract_witness :
    handleDeleteTask pgStore
        { rows := [{ id := 1, userId := 1, title := "a", done := false }], nextId := 2 }
        "/tasks/1".toList
      = ({ status := 204, body := none }, { rows := [], nextId := 2 }) := by
  have h := delete_contract pgStore
    { rows := [{ id := 1, userId := 1, title := "a", done := false }], nextId := 2 }
    ("/tasks/1".toList) 1 (by decide)
  exact h.2.2 0 { rows := [], nextId := 2 } rfl

/-- C1: failing input for the claim "any write failure → 500".  On a PUT
/tasks/7 with body `{"title": "new", "done": true}`, the title write fails
with a datastore error but the done write succeeds; the source's single
`err` variable (reassigned by the second `Exec`) loses the first error, so
the handler proceeds to re-fetch and answers 200 with the record — not
500. -/
theorem update_masked_write_failure :
    dbTitleWriteFails.exec_setTitle () "new" 7 = .error .failure
    ∧ (handleUpdateTask dbTitleWriteFails () "/tasks/7".toList
          (some { title := some "new", done := some true })).1
        = writeJSON 200 (encodeTask { id := 7, userId := 1, title := "old", done := true })
    ∧ (handleUpdateTask dbTitleWriteFails () "/tasks/7".toList
          (some { title := some "new", done := some true })).1.status ≠ 500 :=
  ⟨rfl, rfl, by decide⟩

/-- C3 counterexample: POST /health — a method outside the claimed GET
contract of the registered path /health — is answered 200 `{"status":"ok"}`,
not 405: the /health handler never inspects the method. -/
theorem health_wrong_method_gives_200 :
    (routes pgStore { rows := [], nextId := 1 }
        { method := .post, path := "/health".toList,
          createBody := none, updateBody := none }).1
      = writeJSON 200 (Json.obj [("status", Json.str "ok")])
    ∧ (routes pgStore { rows := [], nextId := 1 }
        { method := .post, path := "/health".toList,
          createBody := none, updateBody := none }).1.status ≠ 405 :=
  ⟨rfl, by decide⟩

/-- A path in the /tasks/ subtree is never the literal "/tasks". -/
theorem tasks_sub_ne_collection {p : List Char}
    (h : (("/tasks/".toList).isPrefixOf p) = true) : p ≠ "/tasks".toList := by
  intro hp
  subst hp
  exact absurd h (by decide)

/-- C3 (amended): on the two /tasks routes any method outside the contract
is answered 405 with `{"error": "method not allowed"}` and the state is
untouched, but on /health every method — GET or not — is answered 200
`{"status":"ok"}`. -/
theorem method_not_allowed_contract {σ : Type} (db : DBOps σ) (s : σ)
    (m : Method) (p : List Char) (cb : Option CreateTaskRequest)
    (ub : Option UpdateTaskRequest) :
    (m ≠ .get → m ≠ .post →
        routes db s { method := m, path := "/tasks".toList,
                      createBody := cb, updateBody := ub }
          = (writeError 405 "method not allowed", s))
    ∧ ((("/tasks/".toList).isPrefixOf p) = true →
        m ≠ .get → m ≠ .put → m ≠ .delete →
        routes db s { method := m, path := p, createBody := cb, updateBody := ub }
          = (writeError 405 "method not allowed", s))
    ∧ (routes db s { method := m, path := "/health".toList,
                     createBody := cb, updateBody := ub }
          = (writeJSON 200 (Json.obj [("status", Json.str "ok")]), s)) := by
  refine ⟨?_, ?_, ?_⟩
  · intro hg hp
    cases m with
    | get => exact absurd rfl hg
    | post => exact absurd rfl hp
    | put => rfl
    | delete => rfl
    | patch => rfl
    | head => rfl
    | options => rfl
    | connect => rfl
  · intro hpre hg hpu hd
    unfold routes
    rw [if_neg (fun hp2 => tasks_sub_ne_collection hpre hp2)]
    rw [if_pos hpre]
    cases m with
    | get => exact absurd rfl hg
    | put => exact absurd rfl hpu
    | delete => exact absurd rfl hd
    | post => rfl
    | patch => rfl
    | head => rfl
    | options => rfl
    | connect => rfl
  · rfl

/-- C3 witness: PATCH /tasks/3 is answered 405 with the claimed body. -/
theorem method_not_allowed_witness :
    routes pgStore { rows := [], nextId := 1 }
        { method := .patch, path := "/tasks/3".toList,
          createBody := none, updateBody := none }
      = (writeError 405 "method not allowed", { rows := [], nextId := 1 }) := by
  have h := method_not_allowed_contract pgStore { rows := [], nextId := 1 }
    Method.patch ("/tasks/3".toList) none none
  exact h.2.1 (by decide) (by decide) (by decide) (by decide)

/-- C4 counterexample: the id segments "0" and "-5" are not positive
integers, yet `strconv.Atoi` accepts them, so no 400 is produced: GET
/tasks/0 reaches the datastore and is answered by the lookup (404 on the
empty table), contradicting "HTTP 400 ... and no datastore call". -/
theorem nonpositive_id_reaches_datastore :
    extractID "/tasks/0".toList "/tasks/".toList = some 0
    ∧ extractID "/tasks/-5".toList "/tasks/".toList = some (-5)
    ∧ (handleGetTask pgStore { rows := [], nextId := 1 } "/tasks/0".toList).1
        = writeError 404 "task 0 not found"
    ∧ (handleGetTask pgStore { rows := [], nextId := 1 } "/tasks/0".toList).1.status ≠ 400 :=
  ⟨rfl, rfl, rfl, by decide⟩

/-- C4 (amended): the id segment is accepted exactly when it parses as an
optionally-signed decimal integer — zero and negative values included, as
the accepted segments "0" and "-5" show.  A segment that does not parse
(non-numeric, empty) makes GET, PUT and DELETE answer 400
`{"error": "invalid task ID"}` with no datastore call: the response is the
same for every datastore and the state is untouched. -/
theorem invalid_id_yields_400 (p : List Char)
    (h : extractID p "/tasks/".toList = none) :
    (∀ (σ : Type) (db : DBOps σ) (s : σ) (b : Option UpdateTaskRequest),
        handleGetTask db s p = (writeError 400 "invalid task ID", s)
        ∧ handleUpdateTask db s p b = (writeError 400 "invalid task ID", s)
        ∧ handleDeleteTask db s p = (writeError 400 "invalid task ID", s))
    ∧ extractID "/tasks/0".toList "/tasks/".toList = some 0
    ∧ extractID "/tasks/-5".toList "/tasks/".toList = some (-5) := by
  refine ⟨?_, rfl, rfl⟩
  intro σ db s b
  refine ⟨?_, ?_, ?_⟩
  · unfold handleGetTask
    simp only [h]
  · unfold handleUpdateTask
    simp only [h]
  · unfold handleDeleteTask
    simp only [h]

/-- C4 witness: GET /tasks/abc is 400 "invalid task ID" on the honest
store, with the store untouched. -/
theorem invalid_id_witness :
    handleGetTask pgStore { rows := [], nextId := 1 } "/tasks/abc".toList
      = (writeError 400 "invalid task ID", { rows := [], nextId := 1 }) := by
  have h := invalid_id_yields_400 ("/tasks/abc".toList) (by decide)
  exact (h.1 Store pgStore { rows := [], nextId := 1 } none).1

/-- C5: PUT /tasks/{id} on an existing task writes only the fields present
in the decoded body.  With the empty body `{}` (both fields absent) no
write occurs — the state is returned unchanged — and the answer is still
200 with the current record.  With only `done` present, every row keeps
its title (and id and user_id); with only `title` present, every row keeps
its done flag (and id and user_id). -/
theorem update_writes_only_present_fields (s : Store) (p : List Char)
    (id : Int) (t : Task) (hp : extractID p "/tasks/".toList = some id)
    (ht : pgStore.queryRow_taskById s id = .ok t) :
    handleUpdateTask pgStore s p (some { title := none, done := none })
      = (writeJSON 200 (encodeTask t), s)
    ∧ (∀ d : Bool,
        ((handleUpdateTask pgStore s p (some { title := none, done := some d })).2).rows.map
            (fun r => (r.id, r.userId, r.title))
          = s.rows.map (fun r => (r.id, r.userId, r.title)))
    ∧ (∀ ti : String,
        ((handleUpdateTask pgStore s p (some { title := some ti, done := none })).2).rows.map
            (fun r => (r.id, r.userId, r.done))
          = s.rows.map (fun r => (r.id, r.userId, r.done))) := by
  refine ⟨?_, ?_, ?_⟩
  · unfold handleUpdateTask
    simp only [hp, ht]
  · intro d
    unfold handleUpdateTask
    simp only [hp]
    cases hq : pgStore.queryRow_taskById
        { rows := s.rows.map (fun r => if r.id == id then { r with done := d } else r),
          nextId := s.nextId } id with
    | error e =>
        simp only [pgStore] at hq ⊢
        simp only [hq, List.map_map]
        apply List.map_congr_left
        intro a _
        by_cases hb : a.id = id <;> simp [hb]
    | ok t2 =>
        simp only [pgStore] at hq ⊢
        simp only [hq, List.map_map]
        apply List.map_congr_left
        intro a _
        by_cases hb : a.id = id <;> simp [hb]
  · intro ti
    unfold handleUpdateTask
    simp only [hp]
    cases hq : pgStore.queryRow_taskById
        { rows := s.rows.map (fun r => if r.id == id then { r with title := ti } else r),
          nextId := s.nextId } id with
    | error e =>
        simp only [pgStore] at hq ⊢
        simp only [hq, List.map_map]
        apply List.map_congr_left
        intro a _
        by_cases hb : a.id = id <;> simp [hb]
    | ok t2 =>
        simp only [pgStore] at hq ⊢
        simp only [hq, List.map_map]
        apply List.map_congr_left
        intro a _
        by_cases hb : a.id = id <;> simp [hb]

/-- C5 witness: PUT /tasks/1 with the empty body on a one-row table
answers 200 with the stored record and leaves the table unchanged. -/
theorem update_frame_witness :
    handleUpdateTask pgStore
        { rows := [{ id := 1, userId := 1, title := "a", done := false }], nextId := 2 }
        "/tasks/1".toList (some { title := none, done := none })
      = (writeJSON 200 (encodeTask { id := 1, userId := 1, title := "a", done := false }),
         { rows := [{ id := 1, userId := 1, title := "a", done := false }], nextId := 2 }) := by
  have h := update_writes_only_present_fields
    { rows := [{ id := 1, userId := 1, title := "a", done := false }], nextId := 2 }
    ("/tasks/1".toList) 1 { id := 1, userId := 1, title := "a", done := false }
    (by decide) rfl
  exact h.1

/-- C9: every successful GET /tasks answers 200 and leaves the state
untouched; the body is the JSON array of the table's rows in ascending id
order (a permutation of all stored rows, sorted by `taskLE`); on the empty
table the body is exactly the empty array, which is a different JSON value
from `null`. -/
theorem list_tasks_contract (s : Store) :
    (handleListTasks pgStore s).1.status = 200
    ∧ (handleListTasks pgStore s).2 = s
    ∧ (handleListTasks pgStore s).1.body
        = some (Json.arr ((sortById s.rows).map encodeTask))
    ∧ (sortById s.rows).Perm s.rows
    ∧ List.Sorted taskLE (sortById s.rows)
    ∧ (s.rows = [] →
        (handleListTasks pgStore s).1.body = some (Json.arr [])
        ∧ Json.arr [] ≠ Json.null) := by
  have hrun : handleListTasks pgStore s
      = (writeJSON 200 (Json.arr ((sortById s.rows).map encodeTask)), s) := by
    unfold handleListTasks
    simp only [pgStore, scanAll_map_ok]
  refine ⟨by rw [hrun]; rfl, by rw [hrun], by rw [hrun]; rfl, ?_, ?_, ?_⟩
  · exact List.perm_insertionSort taskLE s.rows
  · exact List.sorted_insertionSort taskLE s.rows
  · intro hnil
    constructor
    · rw [hrun, hnil]
      rfl
    · intro hcontra
      exact Json.noConfusion hcontra

/-- C9 witness: on the empty table the list body is the empty JSON
array. -/
theorem list_tasks_witness :
    (handleListTasks pgStore { rows := [], nextId := 1 }).1.body
      = some (Json.arr []) := by
  have h := list_tasks_contract { rows := [], nextId := 1 }
  exact (h.2.2.2.2.2 rfl).1

/-- C10 counterexample: a GET /tasks/7// does NOT yield HTTP 400 — the
ServeMux canonicalization (`cleanPath "/tasks/7//" = "/tasks/7/"` differs
from the request path) answers 301 Moved Permanently before any repository
handler runs. -/
theorem duplicate_slash_redirects :
    cleanPath "/tasks/7//".toList = "/tasks/7/".toList
    ∧ (serveMux pgStore { rows := [], nextId := 1 }
        { method := .get, path := "/tasks/7//".toList,
          createBody := none, updateBody := none }).1.status = 301
    ∧ (serveMux pgStore { rows := [], nextId := 1 }
        { method := .get, path := "/tasks/7//".toList,
          createBody := none, updateBody := none }).1.status ≠ 400 :=
  ⟨rfl, rfl, by decide⟩

/-- C10 (amended): `extractID` strips exactly one trailing slash: for any
id segment `rest` not itself ending in "/", the paths `/tasks/{rest}/` and
`/tasks/{rest}` parse identically, so `handleGetTask` addresses the same
task on both.  Concretely, /tasks/7/ is a fixed point of the mux's
canonicalization and is served like /tasks/7 (id 7); /tasks/7/x is also
canonical and its remainder after stripping one slash is not an integer,
so it is served with 400 `{"error": "invalid task ID"}`; but the
non-canonical /tasks/7// never reaches a handler — the mux answers 301
Moved Permanently first. -/
theorem trailing_slash_contract (rest : List Char)
    (h : (['/'].isSuffixOf rest) = false) :
    extractID ("/tasks/".toList ++ rest ++ ['/']) "/tasks/".toList
        = extractID ("/tasks/".toList ++ rest) "/tasks/".toList
    ∧ (∀ (σ : Type) (db : DBOps σ) (s : σ),
        handleGetTask db s ("/tasks/".toList ++ rest ++ ['/'])
          = handleGetTask db s ("/tasks/".toList ++ rest))
    ∧ extractID "/tasks/7/".toList "/tasks/".toList = some 7
    ∧ (∀ (σ : Type) (db : DBOps σ) (s : σ),
        serveMux db s { method := .get, path := "/tasks/7/".toList,
                        createBody := none, updateBody := none }
          = handleGetTask db s "/tasks/7/".toList
        ∧ serveMux db s { method := .get, path := "/tasks/7/x".toList,
                          createBody := none, updateBody := none }
          = (writeError 400 "invalid task ID", s)
        ∧ serveMux db s { method := .get, path := "/tasks/7//".toList,
                          createBody := none, updateBody := none }
          = ({ status := 301, body := none }, s)) := by
  have heq : extractID ("/tasks/".toList ++ rest ++ ['/']) "/tasks/".toList
      = extractID ("/tasks/".toList ++ rest) "/tasks/".toList := by
    unfold extractID
    rw [List.append_assoc, trimLeading_append, trimTrailing_append_slash,
      trimLeading_append, trimTrailing_of_no_slash rest h]
  refine ⟨heq, ?_, rfl, ?_⟩
  · intro σ db s
    unfold handleGetTask
    rw [heq]
  · intro σ db s
    exact ⟨rfl, rfl, rfl⟩

/-- C10 witness: with segment "7", the slashed and unslashed paths parse
to the same id. -/
theorem trailing_slash_witness :
    extractID ("/tasks/".toList ++ "7".toList ++ ['/']) "/tasks/".toList
      = extractID ("/tasks/".toList ++ "7".toList) "/tasks/".toList := by
  have h := trailing_slash_contract ("7".toList) (by decide)
  exact h.1

end TaskApi
